import Mathlib

/-!
Shallow embedding of the localizeph/waitlist submission workflow:
the referral-code generator (src/lib/utils.ts), the two API route
handlers (src/app/api/notion/route.ts, src/app/api/mail/route.ts) and
the client form state machine (src/components/form.tsx), together with
theorems settling the specification claims about them.

External services (the Notion document store, the Resend mailer, the
Upstash rate limiter) are modelled by explicit parameters: the store is
a list of entries, the limiter answer and the send outcome are inputs,
and JavaScript `Math.random` is an arbitrary index source `Nat → Nat`.
-/

namespace Waitlist

/-- JavaScript truthiness of an optional string: `undefined` and the
empty string are falsy, every other string is truthy. -/
def truthy : Option String → Bool
  | none => false
  | some s => !s.isEmpty

/-! ### Referral code generator (src/lib/utils.ts) -/

/-- The charset constant `REFERRAL_CODE_CHARSET` from src/lib/utils.ts. -/
def REFERRAL_CODE_CHARSET : String := "ABCDEFGHJKLMNPQRSTUVWXYZ23456789"

/-- `generateCode(length = 8)` from src/lib/utils.ts. The JavaScript
source draws `Math.floor(Math.random() * charsetLength)` on each loop
iteration; the random source is modelled by `rng : Nat → Nat`, reduced
modulo the charset length exactly as the floored product is always a
valid index below the charset length. -/
def generateCode (rng : Nat → Nat) (length : Nat := 8) : String :=
  String.mk ((List.range length).map fun i =>
    REFERRAL_CODE_CHARSET.toList.getD (rng i % REFERRAL_CODE_CHARSET.length) 'A')

theorem charset_toList_length : REFERRAL_CODE_CHARSET.toList.length = 32 := by
  decide

theorem getD_mem_of_lt (l : List Char) (i : Nat) (d : Char) (h : i < l.length) :
    l.getD i d ∈ l := by
  rw [List.getD_eq_getElem?_getD, List.getElem?_eq_getElem h]
  exact List.getElem_mem h

theorem generateCode_length (rng : Nat → Nat) (n : Nat) :
    (generateCode rng n).length = n := by
  show ((List.range n).map _).length = n
  simp

theorem generateCode_chars (rng : Nat → Nat) (n : Nat) :
    ((generateCode rng n).toList.all
      (fun c => REFERRAL_CODE_CHARSET.toList.contains c)) = true := by
  simp only [generateCode, List.all_eq_true]
  intro c hc
  have hc' : c ∈ (List.range n).map fun i =>
      REFERRAL_CODE_CHARSET.toList.getD (rng i % REFERRAL_CODE_CHARSET.length) 'A' := hc
  rw [List.mem_map] at hc'
  obtain ⟨i, _, rfl⟩ := hc'
  simp only [List.contains, List.elem_eq_mem, decide_eq_true_eq]
  apply getD_mem_of_lt
  rw [charset_toList_length]
  have h32 : REFERRAL_CODE_CHARSET.length = 32 := by decide
  rw [h32]
  exact Nat.mod_lt _ (by decide)

/-- The full alphabet the spec describes: uppercase letters and digits
with the visually ambiguous I, O, 0 and 1 removed. -/
def specAlphabet : List Char :=
  ((List.range 26).map (fun i => Char.ofNat (65 + i))
    ++ (List.range 10).map (fun i => Char.ofNat (48 + i))).filter
    (fun c => !(c == 'I' || c == 'O' || c == '0' || c == '1'))

/-- C1 counterexample: the alphabet of uppercase letters and digits
excluding I, O, 0 and 1 — which is exactly the source charset — has 32
symbols, not the 33 the claim asserts. -/
theorem generateCode_charset_not_33 :
    REFERRAL_CODE_CHARSET.toList = specAlphabet ∧
    REFERRAL_CODE_CHARSET.length = 32 ∧ REFERRAL_CODE_CHARSET.length ≠ 33 := by
  refine ⟨by decide, by decide, by decide⟩

/-- C1 (amended): for every length, `generateCode` returns a string of
exactly that length every character of which belongs to the fixed
32-symbol charset of uppercase letters and digits excluding I, O, 0
and 1. -/
theorem generateCode_spec (rng : Nat → Nat) (n : Nat) :
    (generateCode rng n).length = n ∧
    ((generateCode rng n).toList.all
      (fun c => REFERRAL_CODE_CHARSET.toList.contains c)) = true ∧
    REFERRAL_CODE_CHARSET.length = 32 :=
  ⟨generateCode_length rng n, generateCode_chars rng n, by decide⟩

/-! ### Waitlist enrollment endpoint (src/app/api/notion/route.ts) -/

/-- A waitlist record in the Notion database, with the properties the
route writes: Name (title), Email, Referral Code, Referred By and the
Referrer relation (a page id). -/
structure Entry where
  id : String
  name : String
  email : String
  referralCode : String
  referredBy : Option String
  referrer : Option String
  deriving Repr, DecidableEq

/-- The JSON body destructured by `const \x7b email, firstname, referredBy \x7d
= await request.json()`; a missing field is `none`. -/
structure NotionReq where
  email : Option String
  firstname : Option String
  referredBy : Option String
  deriving Repr, DecidableEq

/-- A `NextResponse.json` payload: the HTTP status plus the optional
body fields either route ever sets. -/
structure ApiResponse where
  status : Nat
  error : Option String := none
  details : Option String := none
  success : Option Bool := none
  message : Option String := none
  code : Option String := none
  notionId : Option String := none
  deriving Repr, DecidableEq

/-- Result of one POST /api/notion call: the response, the store after
the call, and which external operations ran. -/
structure NotionResult where
  resp : ApiResponse
  store : List Entry
  dupQueryRan : Bool
  refQueryRan : Bool
  createTried : Bool
  deriving Repr, DecidableEq

/-- JavaScript `String.prototype.split` with a single-character
separator, on the character list: splitting the empty string gives one
empty group, and every separator occurrence starts a new group. -/
def splitOnChar (sep : Char) : List Char → List (List Char)
  | [] => [[]]
  | c :: rest =>
    if c == sep then [] :: splitOnChar sep rest
    else
      match splitOnChar sep rest with
      | [] => [[c]]
      | g :: gs => (c :: g) :: gs

/-- The local-part fallback `email.split("@")[0]`. -/
def localPart (email : String) : String :=
  String.mk ((splitOnChar '@' email.toList).headD email.toList)

/-- The `POST` handler of src/app/api/notion/route.ts.

`body` is the parsed JSON body (`none` when `request.json()` throws);
`rng` models `Math.random` for `generateCode()`; `newId` is the page id
the store assigns on creation; `dupQueryFails`, `refQueryFails` and
`createFails` say whether the corresponding Notion API call throws.
Every thrown error lands in the outer catch, which answers 500 with
`success: false` and a details payload; the referrer lookup alone has
an inner catch that swallows the error and continues without a
referrer. -/
def notionPOST (store : List Entry) (body : Option NotionReq) (rng : Nat → Nat)
    (newId : String) (dupQueryFails refQueryFails createFails : Bool) :
    NotionResult :=
  match body with
  | none =>
    { resp := { status := 500, error := some "Failed to save to Notion",
                details := some "invalid JSON body", success := some false },
      store := store, dupQueryRan := false, refQueryRan := false,
      createTried := false }
  | some b =>
    if !truthy b.email then
      { resp := { status := 400, error := some "Email is required" },
        store := store, dupQueryRan := false, refQueryRan := false,
        createTried := false }
    else
      let e := b.email.getD ""
      if dupQueryFails then
        { resp := { status := 500, error := some "Failed to save to Notion",
                    details := some "query failed", success := some false },
          store := store, dupQueryRan := true, refQueryRan := false,
          createTried := false }
      else if store.any (fun r => r.email == e) then
        { resp := { status := 409,
                    error := some "You\x27re already on the waitlist!" },
          store := store, dupQueryRan := true, refQueryRan := false,
          createTried := false }
      else
        let code := generateCode rng
        let refRan := truthy b.referredBy
        let referrerPageId : Option String :=
          if truthy b.referredBy then
            if refQueryFails then none
            else
              ((store.filter
                (fun r => r.referralCode == b.referredBy.getD "")).head?).map
                Entry.id
          else none
        if createFails then
          { resp := { status := 500, error := some "Failed to save to Notion",
                      details := some "create failed", success := some false },
            store := store, dupQueryRan := true, refQueryRan := refRan,
            createTried := true }
        else
          let entry : Entry :=
            { id := newId,
              name := if truthy b.firstname then b.firstname.getD ""
                      else localPart e,
              email := e,
              referralCode := code,
              referredBy := if truthy b.referredBy then b.referredBy else none,
              referrer := referrerPageId }
          { resp := { status := 200, success := some true,
                      message := some "Added to waitlist",
                      code := some code, notionId := some newId },
            store := store ++ [entry], dupQueryRan := true,
            refQueryRan := refRan, createTried := true }

/-! ### Mail dispatch endpoint (src/app/api/mail/route.ts) -/

/-- The rate-limit quota configured by
`Ratelimit.slidingWindow(2, "1 m")` in src/app/api/mail/route.ts. -/
def ratelimitRequests : Nat := 2

/-- The rate-limit window configured by
`Ratelimit.slidingWindow(2, "1 m")` in src/app/api/mail/route.ts. -/
def ratelimitWindow : String := "1 m"

/-- The JSON body destructured by `const \x7b email, name \x7d = await
request.json()`; a missing field is `none`. -/
structure MailReq where
  email : Option String
  name : Option String
  deriving Repr, DecidableEq

/-- Outcome of `resend.emails.send`: an error object, an empty (no
data) response, or a message id. -/
inductive SendOutcome where
  | err (msg : String)
  | noData
  | ok (id : String)
  deriving Repr, DecidableEq

/-- Result of one POST /api/mail call: the response, whether
`ratelimit.limit` was invoked and with which key, and whether the send
call to the email provider was attempted. -/
structure MailResult where
  resp : ApiResponse
  limiterCalled : Bool
  limiterKey : Option String
  sendAttempted : Bool
  deriving Repr, DecidableEq

/-- Caller IP extraction from src/app/api/mail/route.ts: first
comma-separated value of `x-forwarded-for`, trimmed, when that header
is truthy; otherwise the trimmed `x-real-ip`, falling back to
`127.0.0.1` when that header is absent. -/
def extractIp (xff xrip : Option String) : String :=
  if truthy xff then (((xff.getD "").splitOn ",").headD "").trim
  else
    match xrip with
    | some r => r.trim
    | none => "127.0.0.1"

/-- The `POST` handler of src/app/api/mail/route.ts.

The handler extracts the IP, consults the rate limiter with it (the
limiter records the request and answers `limitSuccess`), and only then
parses the body, validates `email` and attempts the send. `body` is
`none` when `request.json()` throws, which the outer catch turns into
a 500. -/
def mailPOST (xff xrip : Option String) (limitSuccess : Bool)
    (body : Option MailReq) (send : SendOutcome) : MailResult :=
  let ip := extractIp xff xrip
  if !limitSuccess then
    { resp := { status := 429, error := some "Too many requests!" },
      limiterCalled := true, limiterKey := some ip, sendAttempted := false }
  else
    match body with
    | none =>
      { resp := { status := 500, error := some "Internal server error" },
        limiterCalled := true, limiterKey := some ip, sendAttempted := false }
    | some b =>
      if !truthy b.email then
        { resp := { status := 400, error := some "Email is required" },
          limiterCalled := true, limiterKey := some ip,
          sendAttempted := false }
      else
        match send with
        | .err m =>
          { resp := { status := 500, error := some m },
            limiterCalled := true, limiterKey := some ip,
            sendAttempted := true }
        | .noData =>
          { resp := { status := 500, error := some "Failed to send email" },
            limiterCalled := true, limiterKey := some ip,
            sendAttempted := true }
        | .ok _ =>
          { resp := { status := 200,
                      message := some "Email sent successfully" },
            limiterCalled := true, limiterKey := some ip,
            sendAttempted := true }

/-! ### Client form state machine (src/components/form.tsx) -/

/-- The character class `\s` of JavaScript regular expressions. -/
def jsWhitespace (c : Char) : Bool :=
  c == '\t' || c == '\n' || c.toNat == 0x0B || c.toNat == 0x0C ||
  c == '\r' || c == ' ' || c.toNat == 0xA0 || c.toNat == 0x1680 ||
  (decide (0x2000 ≤ c.toNat) && decide (c.toNat ≤ 0x200A)) ||
  c.toNat == 0x2028 || c.toNat == 0x2029 || c.toNat == 0x202F ||
  c.toNat == 0x205F || c.toNat == 0x3000 || c.toNat == 0xFEFF

/-- A character matched by `[^\s@]`. -/
def emailCharOk (c : Char) : Bool :=
  !(c == '@' || jsWhitespace c)

/-- `isValidEmail` from src/components/form.tsx: whether the string
matches `/^[^\s@]+@[^\s@]+\.[^\s@]+$/`, i.e. it has exactly one `@`,
a nonempty local part and a domain containing a dot that is neither
its first nor its last character, with no whitespace anywhere. -/
def isValidEmail (s : String) : Bool :=
  match splitOnChar '@' s.toList with
  | [l, d] =>
    !l.isEmpty && l.all emailCharOk &&
    d.all emailCharOk && ((d.drop 1).dropLast.contains '.')
  | _ => false

/-- The form component state: `step`, the two input fields, and the
`loading`, `success` and `shareLink` hooks. -/
structure FormState where
  step : Nat
  email : String
  name : String
  loading : Bool
  success : Bool
  shareLink : String
  deriving Repr, DecidableEq

/-- Outcome of the `fetch` to /api/mail as the form observes it: a
rejected promise, or a response with a status code. -/
inductive MailFetch where
  | netErr
  | resp (status : Nat)
  deriving Repr, DecidableEq

/-- Outcome of the `fetch` to /api/notion as the form observes it: a
rejected promise, or a response with a status code, the `error` field
of its JSON body when present, and the `code` field. -/
inductive NotionFetch where
  | netErr
  | resp (status : Nat) (errMsg : Option String) (code : String)
  deriving Repr, DecidableEq

/-- The toast message the form surfaces for one submission. -/
inductive ToastMsg where
  | invalidEmail
  | already (msg : String)
  | tooMany
  | generic
  | joined
  deriving Repr, DecidableEq

/-- Result of one `handleSubmit` run: the state afterwards, which of
the two network calls were issued, and the toast shown. -/
structure SubmitResult where
  state : FormState
  mailCalled : Bool
  notionCalled : Bool
  toast : Option ToastMsg
  deriving Repr, DecidableEq

/-- `Response.ok` of the Fetch API: status in the range 200–299. -/
def respOk (status : Nat) : Bool :=
  decide (200 ≤ status) && decide (status ≤ 299)

/-- `handleSubmit` from src/components/form.tsx.

At step 1 it validates the email and either stays put with an error
toast or moves to step 2; no network call happens. Otherwise it awaits
the mail fetch, aborts on failure (429 mapped to the rate-limit toast,
anything else to the generic one), then awaits the notion fetch: 409
surfaces the response error (or the fallback text) and returns without
setting success, 429 maps to the rate-limit toast, other failures to
the generic toast, and success stores the share link, sets `success`
and clears the input fields. The `finally` clears `loading` on every
path. -/
def handleSubmit (st : FormState) (origin : String)
    (mailF : MailFetch) (notionF : NotionFetch) : SubmitResult :=
  if st.step == 1 then
    if st.email.isEmpty || !isValidEmail st.email then
      { state := st, mailCalled := false, notionCalled := false,
        toast := some .invalidEmail }
    else
      { state := { st with step := 2 }, mailCalled := false,
        notionCalled := false, toast := none }
  else
    match mailF with
    | .netErr =>
      { state := { st with loading := false }, mailCalled := true,
        notionCalled := false, toast := some .generic }
    | .resp ms =>
      if !respOk ms then
        { state := { st with loading := false }, mailCalled := true,
          notionCalled := false,
          toast := some (if ms == 429 then .tooMany else .generic) }
      else
        match notionF with
        | .netErr =>
          { state := { st with loading := false }, mailCalled := true,
            notionCalled := true, toast := some .generic }
        | .resp ns errMsg code =>
          if !respOk ns then
            if ns == 409 then
              { state := { st with loading := false }, mailCalled := true,
                notionCalled := true,
                toast := some (.already (if truthy errMsg then errMsg.getD ""
                  else "You\x27re already on the waitlist!")) }
            else
              { state := { st with loading := false }, mailCalled := true,
                notionCalled := true,
                toast := some (if ns == 429 then .tooMany else .generic) }
          else
            { state := { st with
                email := "", name := "", loading := false, success := true,
                shareLink := origin ++ "/?ref=" ++ code },
              mailCalled := true, notionCalled := true,
              toast := some .joined }

/-! ### Claim theorems -/

/-- C10: for every POST /api/notion request whose body is not parseable
as JSON, the endpoint returns HTTP 500 — not 400 — with `success:
false` and error details in the body, runs no store query and creates
no record. -/
theorem notion_unparseable_body_500 (store : List Entry) (rng : Nat → Nat)
    (newId : String) (dq rq cf : Bool) :
    (notionPOST store none rng newId dq rq cf).resp.status = 500 ∧
    (notionPOST store none rng newId dq rq cf).resp.status ≠ 400 ∧
    (notionPOST store none rng newId dq rq cf).resp.success = some false ∧
    (notionPOST store none rng newId dq rq cf).resp.details.isSome = true ∧
    (notionPOST store none rng newId dq rq cf).dupQueryRan = false ∧
    (notionPOST store none rng newId dq rq cf).createTried = false ∧
    (notionPOST store none rng newId dq rq cf).store = store := by
  refine ⟨rfl, (by decide : (500 : Nat) ≠ 400), rfl, rfl, rfl, rfl, rfl⟩

/-- C2 counterexample: a POST /api/mail request whose body lacks
`email` does not always answer 400 with no rate-limiter update — the
handler consults (and thereby updates) the rate limiter before
validating the body, so a rate-limited request gets 429 instead of
400, and even an allowed request has touched the limiter before its
400. -/
theorem mail_missing_email_counterexample :
    (mailPOST none none false (some ⟨none, none⟩) (.ok "m")).resp.status = 429 ∧
    (mailPOST none none false (some ⟨none, none⟩) (.ok "m")).resp.status ≠ 400 ∧
    (mailPOST none none false (some ⟨none, none⟩) (.ok "m")).limiterCalled = true ∧
    (mailPOST none none true (some ⟨none, none⟩) (.ok "m")).resp.status = 400 ∧
    (mailPOST none none true (some ⟨none, none⟩) (.ok "m")).limiterCalled = true := by
  refine ⟨rfl, by decide, rfl, rfl, rfl⟩

/-- C2 (amended): for every request whose body lacks `email`,
POST /api/notion returns 400 with no store query and no record
creation; POST /api/mail consults the rate limiter before validation,
and when the limiter allows the request it returns 400 with no email
dispatched, while a limiter denial yields 429 (still with no email
dispatched). -/
theorem missing_email_no_writes (store : List Entry) (rng : Nat → Nat)
    (newId : String) (dq rq cf : Bool) (fn rb nm xff xrip : Option String)
    (send : SendOutcome) :
    ((notionPOST store (some ⟨none, fn, rb⟩) rng newId dq rq cf).resp.status = 400 ∧
     (notionPOST store (some ⟨none, fn, rb⟩) rng newId dq rq cf).store = store ∧
     (notionPOST store (some ⟨none, fn, rb⟩) rng newId dq rq cf).dupQueryRan = false ∧
     (notionPOST store (some ⟨none, fn, rb⟩) rng newId dq rq cf).createTried = false) ∧
    ((mailPOST xff xrip true (some ⟨none, nm⟩) send).resp.status = 400 ∧
     (mailPOST xff xrip true (some ⟨none, nm⟩) send).sendAttempted = false ∧
     (mailPOST xff xrip true (some ⟨none, nm⟩) send).limiterCalled = true) ∧
    ((mailPOST xff xrip false (some ⟨none, nm⟩) send).resp.status = 429 ∧
     (mailPOST xff xrip false (some ⟨none, nm⟩) send).sendAttempted = false) := by
  refine ⟨⟨?_, ?_, ?_, ?_⟩, ⟨?_, ?_, ?_⟩, ⟨?_, ?_⟩⟩ <;>
    simp [notionPOST, mailPOST, truthy]

/-- C6: the mail endpoint is configured with the fixed sliding-window
policy of 2 requests per 1-minute window; for every request, the rate
limiter is consulted with the extracted caller IP as key, and whenever
it denies the request the endpoint answers 429 and attempts no email
dispatch. -/
theorem mail_ratelimit_denied_429 (xff xrip : Option String)
    (body : Option MailReq) (send : SendOutcome) :
    (mailPOST xff xrip false body send).resp.status = 429 ∧
    (mailPOST xff xrip false body send).sendAttempted = false ∧
    (mailPOST xff xrip false body send).limiterCalled = true ∧
    (mailPOST xff xrip false body send).limiterKey = some (extractIp xff xrip) ∧
    ratelimitRequests = 2 ∧ ratelimitWindow = "1 m" := by
  refine ⟨?_, ?_, ?_, ?_, rfl, rfl⟩ <;> simp [mailPOST]

theorem generateCode_ne_empty (rng : Nat → Nat) : generateCode rng 8 ≠ "" := by
  intro h
  have hl := generateCode_length rng 8
  rw [h] at hl
  exact absurd hl (by decide)

/-- C3: an enrollment whose email already has a matching record in the
store answers 409 with a message containing "already on the waitlist"
and leaves the store unchanged; a truthy email with no matching record
answers 200 with a non-empty referral code. -/
theorem notion_duplicate_409_fresh_200 (store : List Entry) (rng : Nat → Nat)
    (newId : String) (e : String) (fn rb : Option String) (he : e ≠ "") :
    (store.any (fun r => r.email == e) = true →
      (notionPOST store (some ⟨some e, fn, rb⟩) rng newId false false false).resp.status = 409 ∧
      (notionPOST store (some ⟨some e, fn, rb⟩) rng newId false false false).resp.error =
        some "You\x27re already on the waitlist!" ∧
      "already on the waitlist".toList <:+: "You\x27re already on the waitlist!".toList ∧
      (notionPOST store (some ⟨some e, fn, rb⟩) rng newId false false false).store = store ∧
      (notionPOST store (some ⟨some e, fn, rb⟩) rng newId false false false).createTried = false) ∧
    (store.any (fun r => r.email == e) = false →
      (notionPOST store (some ⟨some e, fn, rb⟩) rng newId false false false).resp.status = 200 ∧
      (notionPOST store (some ⟨some e, fn, rb⟩) rng newId false false false).resp.code =
        some (generateCode rng 8) ∧
      generateCode rng 8 ≠ "" ∧
      (notionPOST store (some ⟨some e, fn, rb⟩) rng newId false false false).resp.success =
        some true) := by
  have htr : truthy (some e) = true := by
    cases hE : e.isEmpty
    · simp [truthy, hE]
    · exact absurd ((String.isEmpty_iff e).mp hE) he
  constructor
  · intro hdup
    refine ⟨?_, ?_, ⟨"You\x27re ".toList, "!".toList, by decide⟩, ?_, ?_⟩ <;>
      simp [notionPOST, htr, hdup]
  · intro hfresh
    refine ⟨?_, ?_, generateCode_ne_empty rng, ?_⟩ <;>
      simp [notionPOST, htr, hfresh, generateCode]

/-- C3 witness: a concrete duplicate submission gets 409 and an
untouched store; a concrete fresh submission gets 200 with a non-empty
code. -/
theorem notion_duplicate_409_fresh_200_witness :
    ((notionPOST [⟨"p0", "n", "a@b.com", "CODE", none, none⟩]
        (some ⟨some "a@b.com", none, none⟩) (fun _ => 0) "id1"
        false false false).resp.status = 409 ∧
     (notionPOST [⟨"p0", "n", "a@b.com", "CODE", none, none⟩]
        (some ⟨some "a@b.com", none, none⟩) (fun _ => 0) "id1"
        false false false).store = [⟨"p0", "n", "a@b.com", "CODE", none, none⟩]) ∧
    ((notionPOST [] (some ⟨some "a@b.com", none, none⟩) (fun _ => 0) "id1"
        false false false).resp.status = 200 ∧
     (notionPOST [] (some ⟨some "a@b.com", none, none⟩) (fun _ => 0) "id1"
        false false false).resp.code = some (generateCode (fun _ => 0) 8) ∧
     generateCode (fun _ => 0) 8 ≠ "") := by
  have h1 := notion_duplicate_409_fresh_200
    [⟨"p0", "n", "a@b.com", "CODE", none, none⟩] (fun _ => 0) "id1" "a@b.com"
    none none (by decide)
  have h2 := notion_duplicate_409_fresh_200 [] (fun _ => 0) "id1" "a@b.com"
    none none (by decide)
  obtain ⟨hs, _, _, hst, _⟩ := h1.1 (by decide)
  obtain ⟨ha, hb, hc, _⟩ := h2.2 (by decide)
  exact ⟨⟨hs, hst⟩, ha, hb, hc⟩

theorem truthy_some_of_ne (s : String) (h : s ≠ "") : truthy (some s) = true := by
  cases hE : s.isEmpty
  · simp [truthy, hE]
  · exact absurd ((String.isEmpty_iff s).mp hE) h

/-- C4: when an enrollment carries a truthy `referredBy`, a referral
code lookup that finds a record makes the created record's referrer
relation point at that record; a lookup that finds nothing, or a
lookup whose store query throws, still lets the enrollment complete
with HTTP 200 and the relation omitted — the lookup failure never
reaches the caller. -/
theorem notion_referrer_soft_fail (store : List Entry) (rng : Nat → Nat)
    (newId e rb : String) (fn : Option String) (w : Entry)
    (he : e ≠ "") (hrb : rb ≠ "")
    (hfresh : store.any (fun r => r.email == e) = false) :
    ((store.filter (fun r => r.referralCode == rb)).head? = some w →
      (notionPOST store (some ⟨some e, fn, some rb⟩) rng newId
        false false false).resp.status = 200 ∧
      ((notionPOST store (some ⟨some e, fn, some rb⟩) rng newId
        false false false).store.getLast?.map Entry.referrer) = some (some w.id)) ∧
    ((store.filter (fun r => r.referralCode == rb)).head? = none →
      (notionPOST store (some ⟨some e, fn, some rb⟩) rng newId
        false false false).resp.status = 200 ∧
      ((notionPOST store (some ⟨some e, fn, some rb⟩) rng newId
        false false false).store.getLast?.map Entry.referrer) = some none) ∧
    ((notionPOST store (some ⟨some e, fn, some rb⟩) rng newId
        false true false).resp.status = 200 ∧
     ((notionPOST store (some ⟨some e, fn, some rb⟩) rng newId
        false true false).store.getLast?.map Entry.referrer) = some none ∧
     (notionPOST store (some ⟨some e, fn, some rb⟩) rng newId
        false true false).resp.success = some true) := by
  have htr := truthy_some_of_ne e he
  have htrb := truthy_some_of_ne rb hrb
  refine ⟨fun hw => ?_, fun hw => ?_, ?_⟩ <;>
    simp [notionPOST, htr, htrb, hfresh, *, List.getLast?_concat]

/-- C4 witness: with one stored record holding code CODE, enrolling
with referredBy CODE links the relation to it, enrolling into an empty
store with referredBy NOPE succeeds without the relation, and a
throwing lookup also succeeds without the relation. -/
theorem notion_referrer_soft_fail_witness :
    ((notionPOST [⟨"p0", "n", "x@y.z", "CODE", none, none⟩]
        (some ⟨some "a@b.com", none, some "CODE"⟩) (fun _ => 0) "id1"
        false false false).resp.status = 200 ∧
     ((notionPOST [⟨"p0", "n", "x@y.z", "CODE", none, none⟩]
        (some ⟨some "a@b.com", none, some "CODE"⟩) (fun _ => 0) "id1"
        false false false).store.getLast?.map Entry.referrer) = some (some "p0")) ∧
    ((notionPOST [] (some ⟨some "a@b.com", none, some "NOPE"⟩) (fun _ => 0)
        "id1" false false false).resp.status = 200 ∧
     ((notionPOST [] (some ⟨some "a@b.com", none, some "NOPE"⟩) (fun _ => 0)
        "id1" false false false).store.getLast?.map Entry.referrer) = some none) ∧
    ((notionPOST [] (some ⟨some "a@b.com", none, some "NOPE"⟩) (fun _ => 0)
        "id1" false true false).resp.status = 200 ∧
     ((notionPOST [] (some ⟨some "a@b.com", none, some "NOPE"⟩) (fun _ => 0)
        "id1" false true false).store.getLast?.map Entry.referrer) = some none) := by
  have h1 := notion_referrer_soft_fail [⟨"p0", "n", "x@y.z", "CODE", none, none⟩]
    (fun _ => 0) "id1" "a@b.com" "CODE" none ⟨"p0", "n", "x@y.z", "CODE", none, none⟩
    (by decide) (by decide) (by decide)
  have h2 := notion_referrer_soft_fail [] (fun _ => 0) "id1" "a@b.com" "NOPE"
    none ⟨"p0", "n", "x@y.z", "CODE", none, none⟩ (by decide) (by decide) (by decide)
  obtain ⟨ha, hb⟩ := h1.1 (by decide)
  obtain ⟨hc, hd⟩ := h2.2.1 (by decide)
  exact ⟨⟨ha, hb⟩, ⟨hc, hd⟩, h2.2.2.1, h2.2.2.2.1⟩

/-- C5 counterexample: supplying `firstname` as the empty string — a
present field — still makes the created record's name fall back to the
email's local-part, because the source tests JavaScript truthiness,
not absence: the record name is "a", not the supplied "". -/
theorem notion_firstname_empty_counterexample :
    (notionPOST [] (some ⟨some "a@b.com", some "", none⟩) (fun _ => 0) "id1"
       false false false).store.map Entry.name = ["a"] ∧
    (notionPOST [] (some ⟨some "a@b.com", some "", none⟩) (fun _ => 0) "id1"
       false false false).resp.status = 200 ∧
    ("a" : String) ≠ "" := by
  refine ⟨by decide, by decide, by decide⟩

/-- C5 (amended): on successful enrollment the created record's name is
the supplied firstname when that is truthy (present and non-empty) and
the email's local-part before the `@` otherwise, and the response is
HTTP 200 with `success: true`, the generated referral code and the
created record's id. -/
theorem notion_success_record (store : List Entry) (rng : Nat → Nat)
    (newId e : String) (fn rb : Option String) (he : e ≠ "")
    (hfresh : store.any (fun r => r.email == e) = false) :
    (notionPOST store (some ⟨some e, fn, rb⟩) rng newId
       false false false).resp.status = 200 ∧
    (notionPOST store (some ⟨some e, fn, rb⟩) rng newId
       false false false).resp.success = some true ∧
    (notionPOST store (some ⟨some e, fn, rb⟩) rng newId
       false false false).resp.code = some (generateCode rng 8) ∧
    (notionPOST store (some ⟨some e, fn, rb⟩) rng newId
       false false false).resp.notionId = some newId ∧
    ((notionPOST store (some ⟨some e, fn, rb⟩) rng newId
       false false false).store.getLast?.map Entry.name) =
      some (if truthy fn then fn.getD "" else localPart e) ∧
    ((notionPOST store (some ⟨some e, fn, rb⟩) rng newId
       false false false).store.getLast?.map Entry.email) = some e := by
  have htr := truthy_some_of_ne e he
  refine ⟨?_, ?_, ?_, ?_, ?_, ?_⟩ <;>
    simp [notionPOST, htr, hfresh, generateCode, List.getLast?_concat]

/-- C5 witness: a concrete enrollment with firstname Bob creates the
record under that name and answers 200 with the code and id. -/
theorem notion_success_record_witness :
    (notionPOST [] (some ⟨some "a@b.com", some "Bob", none⟩) (fun _ => 0)
       "id1" false false false).resp.status = 200 ∧
    ((notionPOST [] (some ⟨some "a@b.com", some "Bob", none⟩) (fun _ => 0)
       "id1" false false false).store.getLast?.map Entry.name) =
      some (if truthy (some "Bob") then (some "Bob").getD ""
            else localPart "a@b.com") ∧
    (notionPOST [] (some ⟨some "a@b.com", some "Bob", none⟩) (fun _ => 0)
       "id1" false false false).resp.notionId = some "id1" := by
  have h := notion_success_record [] (fun _ => 0) "id1" "a@b.com"
    (some "Bob") none (by decide) (by decide)
  exact ⟨h.1, h.2.2.2.2.1, h.2.2.2.1⟩

theorem isValidEmail_isEmpty_false (s : String) (h : isValidEmail s = true) :
    s.isEmpty = false := by
  cases hE : s.isEmpty
  · rfl
  · rw [(String.isEmpty_iff s).mp hE] at h
    exact absurd h (by decide)

/-- C7: at step 1, a submit with an email failing the regex leaves the
state unchanged and issues no network call; a submit with an email
passing the regex moves the state to step 2, also with no network
call. -/
theorem form_step1_transitions (em nm sl origin : String) (ld sc : Bool)
    (mf : MailFetch) (nf : NotionFetch) :
    (isValidEmail em = false →
      (handleSubmit ⟨1, em, nm, ld, sc, sl⟩ origin mf nf).state =
        ⟨1, em, nm, ld, sc, sl⟩ ∧
      (handleSubmit ⟨1, em, nm, ld, sc, sl⟩ origin mf nf).mailCalled = false ∧
      (handleSubmit ⟨1, em, nm, ld, sc, sl⟩ origin mf nf).notionCalled = false) ∧
    (isValidEmail em = true →
      (handleSubmit ⟨1, em, nm, ld, sc, sl⟩ origin mf nf).state =
        ⟨2, em, nm, ld, sc, sl⟩ ∧
      (handleSubmit ⟨1, em, nm, ld, sc, sl⟩ origin mf nf).mailCalled = false ∧
      (handleSubmit ⟨1, em, nm, ld, sc, sl⟩ origin mf nf).notionCalled = false) := by
  constructor
  · intro h
    simp [handleSubmit, h]
  · intro h
    have hE := isValidEmail_isEmpty_false em h
    simp [handleSubmit, h, hE]

/-- C7 witness: the invalid email "foo" keeps the form at step 1 with
no network call; the valid "a@b.com" moves it to step 2 with no
network call. -/
theorem form_step1_transitions_witness :
    ((handleSubmit ⟨1, "foo", "", false, false, ""⟩ "o" .netErr .netErr).state =
       ⟨1, "foo", "", false, false, ""⟩ ∧
     (handleSubmit ⟨1, "foo", "", false, false, ""⟩ "o" .netErr .netErr).mailCalled = false ∧
     (handleSubmit ⟨1, "foo", "", false, false, ""⟩ "o" .netErr .netErr).notionCalled = false) ∧
    ((handleSubmit ⟨1, "a@b.com", "", false, false, ""⟩ "o" .netErr .netErr).state =
       ⟨2, "a@b.com", "", false, false, ""⟩ ∧
     (handleSubmit ⟨1, "a@b.com", "", false, false, ""⟩ "o" .netErr .netErr).mailCalled = false ∧
     (handleSubmit ⟨1, "a@b.com", "", false, false, ""⟩ "o" .netErr .netErr).notionCalled = false) := by
  have h1 := form_step1_transitions "foo" "" "" "o" false false .netErr .netErr
  have h2 := form_step1_transitions "a@b.com" "" "" "o" false false .netErr .netErr
  exact ⟨h1.1 (by decide), h2.2 (by decide)⟩

/-- Whether the mail fetch failed as the form sees it: a rejected
promise or a response with `ok` false. -/
def mailFailed : MailFetch → Bool
  | .netErr => true
  | .resp s => !respOk s

/-- C8: in a step-2 submission, when the mail fetch fails — network
failure or a non-2xx status — the notion enrollment fetch is never
issued. -/
theorem form_mail_failure_blocks_notion (em nm sl origin : String)
    (ld sc : Bool) (mf : MailFetch) (nf : NotionFetch)
    (h : mailFailed mf = true) :
    (handleSubmit ⟨2, em, nm, ld, sc, sl⟩ origin mf nf).mailCalled = true ∧
    (handleSubmit ⟨2, em, nm, ld, sc, sl⟩ origin mf nf).notionCalled = false := by
  cases mf with
  | netErr => exact ⟨rfl, rfl⟩
  | resp s =>
    simp only [mailFailed, Bool.not_eq_true'] at h
    simp [handleSubmit, h]

/-- C8 witness: a concrete 500 from the mail endpoint stops the
sequence before the enrollment call. -/
theorem form_mail_failure_blocks_notion_witness :
    (handleSubmit ⟨2, "a@b.com", "", false, false, ""⟩ "o" (.resp 500)
       .netErr).mailCalled = true ∧
    (handleSubmit ⟨2, "a@b.com", "", false, false, ""⟩ "o" (.resp 500)
       .netErr).notionCalled = false :=
  form_mail_failure_blocks_notion "a@b.com" "" "" "o" false false
    (.resp 500) .netErr (by decide)

/-- C9: every failed step-2 submission surfaces exactly one of three
messages: a 409 from enrollment shows the response's error text (the
endpoint's "already on the waitlist" message, with that text as
fallback) without setting success, a 429 from either call shows the
too-many-attempts message, and every other failure — network error or
other non-2xx — shows the generic message. -/
theorem form_error_toasts (em nm sl origin : String) (ld sc : Bool)
    (ms ns : Nat) (errMsg : Option String) (code : String) :
    ((handleSubmit ⟨2, em, nm, ld, sc, sl⟩ origin .netErr
        (.resp ns errMsg code)).toast = some .generic) ∧
    (respOk ms = false → ms ≠ 429 →
      (handleSubmit ⟨2, em, nm, ld, sc, sl⟩ origin (.resp ms)
        (.resp ns errMsg code)).toast = some .generic) ∧
    ((handleSubmit ⟨2, em, nm, ld, sc, sl⟩ origin (.resp 429)
        (.resp ns errMsg code)).toast = some .tooMany) ∧
    (respOk ms = true →
      (handleSubmit ⟨2, em, nm, ld, sc, sl⟩ origin (.resp ms)
        .netErr).toast = some .generic) ∧
    (respOk ms = true →
      (handleSubmit ⟨2, em, nm, ld, sc, sl⟩ origin (.resp ms)
        (.resp 409 errMsg code)).toast =
        some (.already (if truthy errMsg then errMsg.getD ""
          else "You\x27re already on the waitlist!")) ∧
      (handleSubmit ⟨2, em, nm, ld, sc, sl⟩ origin (.resp ms)
        (.resp 409 errMsg code)).state.success = sc ∧
      (handleSubmit ⟨2, em, nm, ld, sc, sl⟩ origin (.resp ms)
        (.resp 409 errMsg code)).state.loading = false) ∧
    (respOk ms = true →
      (handleSubmit ⟨2, em, nm, ld, sc, sl⟩ origin (.resp ms)
        (.resp 429 errMsg code)).toast = some .tooMany) ∧
    (respOk ms = true → respOk ns = false → ns ≠ 409 → ns ≠ 429 →
      (handleSubmit ⟨2, em, nm, ld, sc, sl⟩ origin (.resp ms)
        (.resp ns errMsg code)).toast = some .generic) := by
  refine ⟨?_, ?_, ?_, ?_, ?_, ?_, ?_⟩
  · simp [handleSubmit]
  · intro h1 h2
    have hb : (ms == 429) = false := beq_eq_false_iff_ne.mpr h2
    simp [handleSubmit, h1, hb]
  · simp [handleSubmit, respOk]
  · intro h1
    simp [handleSubmit, h1]
  · intro h1
    have h409 : respOk 409 = false := by decide
    simp [handleSubmit, h1, h409]
  · intro h1
    have h429 : respOk 429 = false := by decide
    simp [handleSubmit, h1, h429]
  · intro h1 h2 h3 h4
    have hb3 : (ns == 409) = false := beq_eq_false_iff_ne.mpr h3
    have hb4 : (ns == 429) = false := beq_eq_false_iff_ne.mpr h4
    simp [handleSubmit, h1, h2, hb3, hb4]

/-- C9 witness: concrete failed submissions — mail 500, mail 429,
notion 409 with the endpoint's message, notion 429, notion 500 and the
two network failures — each surface the claimed toast. -/
theorem form_error_toasts_witness :
    ((handleSubmit ⟨2, "a@b.com", "", false, false, ""⟩ "o" .netErr
        (.resp 200 none "c")).toast = some .generic) ∧
    ((handleSubmit ⟨2, "a@b.com", "", false, false, ""⟩ "o" (.resp 500)
        (.resp 200 none "c")).toast = some .generic) ∧
    ((handleSubmit ⟨2, "a@b.com", "", false, false, ""⟩ "o" (.resp 429)
        (.resp 200 none "c")).toast = some .tooMany) ∧
    ((handleSubmit ⟨2, "a@b.com", "", false, false, ""⟩ "o" (.resp 200)
        .netErr).toast = some .generic) ∧
    ((handleSubmit ⟨2, "a@b.com", "", false, false, ""⟩ "o" (.resp 200)
        (.resp 409 (some "You\x27re already on the waitlist!") "c")).toast =
      some (.already "You\x27re already on the waitlist!") ∧
     (handleSubmit ⟨2, "a@b.com", "", false, false, ""⟩ "o" (.resp 200)
        (.resp 409 (some "You\x27re already on the waitlist!") "c")).state.success = false) ∧
    ((handleSubmit ⟨2, "a@b.com", "", false, false, ""⟩ "o" (.resp 200)
        (.resp 429 none "c")).toast = some .tooMany) ∧
    ((handleSubmit ⟨2, "a@b.com", "", false, false, ""⟩ "o" (.resp 200)
        (.resp 500 none "c")).toast = some .generic) := by
  have h1 := form_error_toasts "a@b.com" "" "" "o" false false 500 500 none "c"
  have h2 := form_error_toasts "a@b.com" "" "" "o" false false 429 429 none "c"
  have h3 := form_error_toasts "a@b.com" "" "" "o" false false 200 500
    (some "You\x27re already on the waitlist!") "c"
  have h4 := form_error_toasts "a@b.com" "" "" "o" false false 200 429 none "c"
  refine ⟨?_, ?_, ?_, ?_, ⟨?_, ?_⟩, ?_, ?_⟩
  · exact (form_error_toasts "a@b.com" "" "" "o" false false 200 200 none "c").1
  · exact h1.2.1 (by decide) (by decide)
  · exact h2.2.2.1
  · exact h3.2.2.2.1 (by decide)
  · have := (h3.2.2.2.2.1 (by decide)).1
    simpa using this
  · exact (h3.2.2.2.2.1 (by decide)).2.1
  · exact (form_error_toasts "a@b.com" "" "" "o" false false 200 429 none
      "c").2.2.2.2.2.1 (by decide)
  · exact (form_error_toasts "a@b.com" "" "" "o" false false 200 500 none
      "c").2.2.2.2.2.2 (by decide) (by decide) (by decide) (by decide)

end Waitlist
